import Mathlib

/-!
Verification of jules-scratch/verification/verify_callcaps.py.

The script drives an external browser-automation engine.  We embed it as a
pure function that returns the sequence of engine commands it issues together
with the error (if any) that escapes it.  The external world is modelled by an
environment recording, for each fallible engine operation, whether that
operation succeeds when the script attempts it.
-/

namespace VerifyCallcaps

/-- A command issued to the browser-automation engine. -/
inductive Event where
  | startEngine : Event
  | launch : Bool → Event
  | newPage : Event
  | goto : String → Event
  | screenshot : String → Event
  | closeBrowser : Event
  | stopEngine : Event
  deriving DecidableEq, Repr

/-- The failure conditions the engine can raise, one per fallible operation. -/
inductive PWError where
  | engineStartError : PWError
  | launchError : PWError
  | newPageError : PWError
  | navigationTimeout : PWError
  | captureError : PWError
  deriving DecidableEq, Repr

/-- The engine's responses: for each operation the script may attempt,
whether it succeeds.  The script reads no other input. -/
structure Env where
  engineOk : Bool
  launchOk : Bool
  newPageOk : Bool
  gotoOk : Bool
  screenshotOk : Bool
  deriving DecidableEq, Repr

/-- The fixed navigation target of line 10 of the script. -/
def targetURL : String := "http://localhost:3000/dashboard/callcaps"

/-- The fixed screenshot destination of line 13 of the script. -/
def screenshotPath : String := "jules-scratch/verification/debug_screenshot.png"

/-- Embedding of `verify_callcaps_dashboard(page)`: one `page.goto` to the
fixed URL, then one `page.screenshot` to the fixed path.  Each call is
recorded when attempted; a failing call raises, so nothing after it runs. -/
def verify_callcaps_dashboard (env : Env) : List Event × Option PWError :=
  if env.gotoOk then
    if env.screenshotOk then
      ([Event.goto targetURL, Event.screenshot screenshotPath], none)
    else
      ([Event.goto targetURL, Event.screenshot screenshotPath],
        some PWError.captureError)
  else
    ([Event.goto targetURL], some PWError.navigationTimeout)

/-- The body of the `with sync_playwright()` block in `main`:
`browser = p.chromium.launch(headless=True)`, `page = browser.new_page()`,
`verify_callcaps_dashboard(page)`, `browser.close()`, in that order, with no
exception handling: a failing call raises and skips everything after it. -/
def mainBody (env : Env) : List Event × Option PWError :=
  if env.launchOk then
    if env.newPageOk then
      match verify_callcaps_dashboard env with
      | (tr, none) =>
          ([Event.launch true, Event.newPage] ++ tr ++ [Event.closeBrowser], none)
      | (tr, some e) =>
          ([Event.launch true, Event.newPage] ++ tr, some e)
    else ([Event.launch true, Event.newPage], some PWError.newPageError)
  else ([Event.launch true], some PWError.launchError)

/-- Embedding of `main()`: the `with sync_playwright() as p:` context manager
starts the engine; on leaving the block, normally or through an exception, it
stops the engine, and any exception from the body propagates unchanged. -/
def main (env : Env) : List Event × Option PWError :=
  if env.engineOk then
    (Event.startEngine :: (mainBody env).1 ++ [Event.stopEngine], (mainBody env).2)
  else ([Event.startEngine], some PWError.engineStartError)

/-- Embedding of the module top level: the guard
`if __name__ == "__main__": main()` runs `main` only when the file is the
top-level program; importing it as a library executes nothing. -/
def runModule (isMain : Bool) (env : Env) : List Event × Option PWError :=
  if isMain then main env else ([], none)

/-- The files the run leaves on disk: the screenshot call writes its file
exactly when it is issued and the engine reports it succeeded. -/
def writtenFiles (env : Env) : List String :=
  if env.screenshotOk then
    (main env).1.filterMap fun e =>
      match e with
      | Event.screenshot p => some p
      | _ => none
  else []

/-- The script's non-cleanup operations: everything except the engine start
and the engine shutdown performed by the scope itself. -/
def opEvents (tr : List Event) : List Event :=
  tr.filter fun e =>
    match e with
    | Event.startEngine => false
    | Event.stopEngine => false
    | _ => true

/-- The complete command sequence of a fully successful run. -/
def fullScript : List Event :=
  [Event.startEngine, Event.launch true, Event.newPage, Event.goto targetURL,
   Event.screenshot screenshotPath, Event.closeBrowser, Event.stopEngine]

lemma main_trace_sublist (env : Env) : List.Sublist (main env).1 fullScript := by
  rcases env with ⟨e, l, n, g, s⟩
  cases e <;> cases l <;> cases n <;> cases g <;> cases s <;> decide

/-- C1 (counterexample): the claim that `browser.close` is executed even when
the verification routine fails is false.  When navigation fails (here: engine
up, browser launched, page opened, `page.goto` times out), the browser was
launched but `browser.close` is never invoked and the run ends in error. -/
theorem c1_close_skipped_on_failure :
    Event.launch true ∈ (main ⟨true, true, true, false, true⟩).1 ∧
    Event.closeBrowser ∉ (main ⟨true, true, true, false, true⟩).1 ∧
    (main ⟨true, true, true, false, true⟩).2 ≠ none := by decide

/-- C1 (amended): `browser.close` is invoked exactly in the executions of
`main` in which every step succeeds — engine start, browser launch, page
creation, navigation and capture; whenever any of these fails, the exception
skips `browser.close` (only the engine-scope shutdown still runs). -/
theorem c1_close_iff_full_success (env : Env) :
    Event.closeBrowser ∈ (main env).1 ↔
      (env.engineOk = true ∧ env.launchOk = true ∧ env.newPageOk = true ∧
       env.gotoOk = true ∧ env.screenshotOk = true) := by
  rcases env with ⟨e, l, n, g, s⟩
  cases e <;> cases l <;> cases n <;> cases g <;> cases s <;> decide

/-- C2: no error is caught or transformed.  Once the engine is up, whichever
of launch, page creation, navigation or capture fails first, `main` terminates
with exactly that error and none of the script operations after the failing
one is executed. -/
theorem c2_error_propagation (env : Env) (he : env.engineOk = true) :
    (env.launchOk = false →
      opEvents (main env).1 = [Event.launch true] ∧
      (main env).2 = some PWError.launchError) ∧
    (env.launchOk = true → env.newPageOk = false →
      opEvents (main env).1 = [Event.launch true, Event.newPage] ∧
      (main env).2 = some PWError.newPageError) ∧
    (env.launchOk = true → env.newPageOk = true → env.gotoOk = false →
      opEvents (main env).1 =
        [Event.launch true, Event.newPage, Event.goto targetURL] ∧
      (main env).2 = some PWError.navigationTimeout) ∧
    (env.launchOk = true → env.newPageOk = true → env.gotoOk = true →
      env.screenshotOk = false →
      opEvents (main env).1 =
        [Event.launch true, Event.newPage, Event.goto targetURL,
         Event.screenshot screenshotPath] ∧
      (main env).2 = some PWError.captureError) := by
  rcases env with ⟨e, l, n, g, s⟩
  cases e <;> cases l <;> cases n <;> cases g <;> cases s <;>
    refine ⟨fun h1 => ?_, fun h1 h2 => ?_, fun h1 h2 h3 => ?_,
      fun h1 h2 h3 h4 => ?_⟩ <;>
    first
      | exact absurd he (by decide)
      | exact absurd h1 (by decide)
      | exact absurd h2 (by decide)
      | exact absurd h3 (by decide)
      | exact absurd h4 (by decide)
      | decide

theorem c2_error_propagation_witness :
    (true : Bool) = true ∧ (false : Bool) = false ∧
    (opEvents (main ⟨true, false, true, true, true⟩).1 = [Event.launch true] ∧
     (main ⟨true, false, true, true, true⟩).2 = some PWError.launchError) :=
  ⟨rfl, rfl, (c2_error_propagation ⟨true, false, true, true, true⟩ rfl).1 rfl⟩

/-- C3: if everything up to navigation succeeds but navigation fails, `main`
terminates with the navigation-timeout error, the screenshot command is never
issued, and no file is written. -/
theorem c3_nav_failure_no_file (env : Env)
    (he : env.engineOk = true) (hl : env.launchOk = true)
    (hn : env.newPageOk = true) (hg : env.gotoOk = false) :
    (main env).2 = some PWError.navigationTimeout ∧
    Event.screenshot screenshotPath ∉ (main env).1 ∧
    writtenFiles env = [] := by
  rcases env with ⟨e, l, n, g, s⟩
  cases e <;> cases l <;> cases n <;> cases g <;> cases s <;>
    first
      | exact absurd he (by decide)
      | exact absurd hl (by decide)
      | exact absurd hn (by decide)
      | exact absurd hg (by decide)
      | decide

theorem c3_nav_failure_no_file_witness :
    (main ⟨true, true, true, false, true⟩).2 = some PWError.navigationTimeout ∧
    Event.screenshot screenshotPath ∉ (main ⟨true, true, true, false, true⟩).1 ∧
    writtenFiles ⟨true, true, true, false, true⟩ = [] :=
  c3_nav_failure_no_file ⟨true, true, true, false, true⟩ rfl rfl rfl rfl

/-- C4: the verification routine issues exactly two page operations in a
fixed order — when navigation returns, its command sequence is precisely one
`goto` followed by one `screenshot`; when navigation fails, only the `goto`
was issued; and a `screenshot` command appears only if navigation returned. -/
theorem c4_two_page_ops (env : Env) :
    (env.gotoOk = true →
      (verify_callcaps_dashboard env).1 =
        [Event.goto targetURL, Event.screenshot screenshotPath]) ∧
    (env.gotoOk = false →
      (verify_callcaps_dashboard env).1 = [Event.goto targetURL]) ∧
    (Event.screenshot screenshotPath ∈ (verify_callcaps_dashboard env).1 →
      env.gotoOk = true) := by
  rcases env with ⟨e, l, n, g, s⟩
  cases e <;> cases l <;> cases n <;> cases g <;> cases s <;>
    refine ⟨fun h1 => ?_, fun h2 => ?_, fun h3 => ?_⟩ <;>
    first
      | exact absurd h1 (by decide)
      | exact absurd h2 (by decide)
      | exact absurd h3 (by decide)
      | decide

theorem c4_two_page_ops_witness :
    (verify_callcaps_dashboard ⟨true, true, true, true, true⟩).1 =
      [Event.goto targetURL, Event.screenshot screenshotPath] :=
  (c4_two_page_ops ⟨true, true, true, true, true⟩).1 rfl

/-- C5: the navigation target and the capture destination are the fixed
string constants of the source — every `goto` command `main` ever issues
targets `http://localhost:3000/dashboard/callcaps` and every `screenshot`
command targets `jules-scratch/verification/debug_screenshot.png`, whatever
the engine's responses. -/
theorem c5_fixed_constants (env : Env) :
    (∀ u, Event.goto u ∈ (main env).1 →
      u = "http://localhost:3000/dashboard/callcaps") ∧
    (∀ p, Event.screenshot p ∈ (main env).1 →
      p = "jules-scratch/verification/debug_screenshot.png") := by
  refine ⟨fun u hu => ?_, fun p hp => ?_⟩
  · have hm := (main_trace_sublist env).subset hu
    simp [fullScript, targetURL, screenshotPath] at hm
    exact hm
  · have hm := (main_trace_sublist env).subset hp
    simp [fullScript, targetURL, screenshotPath] at hm
    exact hm

theorem c5_fixed_constants_witness :
    Event.goto "http://localhost:3000/dashboard/callcaps" ∈
      (main ⟨true, true, true, true, true⟩).1 ∧
    "http://localhost:3000/dashboard/callcaps" =
      "http://localhost:3000/dashboard/callcaps" :=
  ⟨by decide,
   (c5_fixed_constants ⟨true, true, true, true, true⟩).1 _ (by decide)⟩

/-- C6: once the engine is up, `main` issues exactly one browser launch, in
headless mode and never otherwise; exactly one page open once the launch
succeeded; and, once a page exists, the verification routine runs exactly
once, synchronously, its command sequence appearing contiguously right after
the page was opened. -/
theorem c6_single_instances (env : Env) (he : env.engineOk = true) :
    (main env).1.count (Event.launch true) = 1 ∧
    Event.launch false ∉ (main env).1 ∧
    (env.launchOk = true → (main env).1.count Event.newPage = 1) ∧
    (env.launchOk = true → env.newPageOk = true →
      ∃ post, (main env).1 =
        [Event.startEngine, Event.launch true, Event.newPage] ++
          (verify_callcaps_dashboard env).1 ++ post) := by
  rcases env with ⟨e, l, n, g, s⟩
  cases e <;> cases l <;> cases n <;> cases g <;> cases s <;>
    refine ⟨?_, ?_, fun h1 => ?_, fun h1 h2 => ?_⟩ <;>
    first
      | exact absurd he (by decide)
      | exact absurd h1 (by decide)
      | exact absurd h2 (by decide)
      | exact ⟨[Event.closeBrowser, Event.stopEngine], by decide⟩
      | exact ⟨[Event.stopEngine], by decide⟩
      | decide

theorem c6_single_instances_witness :
    (main ⟨true, true, true, true, true⟩).1.count (Event.launch true) = 1 ∧
    Event.launch false ∉ (main ⟨true, true, true, true, true⟩).1 ∧
    ((true : Bool) = true →
      (main ⟨true, true, true, true, true⟩).1.count Event.newPage = 1) ∧
    ((true : Bool) = true → (true : Bool) = true →
      ∃ post, (main ⟨true, true, true, true, true⟩).1 =
        [Event.startEngine, Event.launch true, Event.newPage] ++
          (verify_callcaps_dashboard ⟨true, true, true, true, true⟩).1 ++ post) :=
  c6_single_instances ⟨true, true, true, true, true⟩ rfl

/-- C7: the routine inspects nothing about the page.  If the navigation call
returns — whatever the server answered — the screenshot command is still
issued; if the capture also succeeds the routine reports no error, and a run
whose engine operations all succeed makes `main` finish with no error.  (The
environment carries no page content at all: the outcome cannot depend on what
the page shows.) -/
theorem c7_no_inspection (env : Env) (hg : env.gotoOk = true) :
    Event.screenshot screenshotPath ∈ (verify_callcaps_dashboard env).1 ∧
    (env.screenshotOk = true → (verify_callcaps_dashboard env).2 = none) ∧
    (env.engineOk = true → env.launchOk = true → env.newPageOk = true →
      env.screenshotOk = true → (main env).2 = none) := by
  rcases env with ⟨e, l, n, g, s⟩
  cases e <;> cases l <;> cases n <;> cases g <;> cases s <;>
    refine ⟨?_, fun h1 => ?_, fun h1 h2 h3 h4 => ?_⟩ <;>
    first
      | exact absurd hg (by decide)
      | exact absurd h1 (by decide)
      | exact absurd h2 (by decide)
      | exact absurd h3 (by decide)
      | exact absurd h4 (by decide)
      | decide

theorem c7_no_inspection_witness :
    Event.screenshot screenshotPath ∈
      (verify_callcaps_dashboard ⟨true, true, true, true, true⟩).1 ∧
    ((true : Bool) = true →
      (verify_callcaps_dashboard ⟨true, true, true, true, true⟩).2 = none) ∧
    ((true : Bool) = true → (true : Bool) = true → (true : Bool) = true →
      (true : Bool) = true → (main ⟨true, true, true, true, true⟩).2 = none) :=
  c7_no_inspection ⟨true, true, true, true, true⟩ rfl

/-- C8: the engine is acquired in a guaranteed-release scope.  In every
execution of `main` in which the engine started — including those that exit
through an exception from launch, page creation, navigation or capture — the
engine shutdown is issued, and it is the last command of the run. -/
theorem c8_engine_shutdown (env : Env) (he : env.engineOk = true) :
    Event.stopEngine ∈ (main env).1 ∧
    (main env).1.getLast? = some Event.stopEngine := by
  rcases env with ⟨e, l, n, g, s⟩
  cases e <;> cases l <;> cases n <;> cases g <;> cases s <;>
    first
      | exact absurd he (by decide)
      | decide

theorem c8_engine_shutdown_witness :
    Event.stopEngine ∈ (main ⟨true, true, true, false, true⟩).1 ∧
    (main ⟨true, true, true, false, true⟩).1.getLast? =
      some Event.stopEngine :=
  c8_engine_shutdown ⟨true, true, true, false, true⟩ rfl

/-- C9: importing the module has no side effects — when the file is not the
top-level program the module issues no engine command and raises no error,
and `main` runs exactly when the guard sees the top-level program. -/
theorem c9_import_no_side_effects (env : Env) :
    runModule false env = ([], none) ∧ runModule true env = main env := by
  exact ⟨rfl, rfl⟩

/-- C10: the script is deterministic in the commands it issues.  Its command
sequence is a function of the engine's responses alone, always an in-order
part of the one fixed sequence — start engine, launch headless, open one
page, navigate to the fixed URL, capture to the fixed path, close browser,
stop engine — and equals that full sequence whenever every response is
success. -/
theorem c10_deterministic_commands (env : Env) :
    List.Sublist (main env).1 fullScript ∧
    (env.engineOk = true → env.launchOk = true → env.newPageOk = true →
      env.gotoOk = true → env.screenshotOk = true →
      (main env).1 = fullScript) := by
  refine ⟨main_trace_sublist env, fun he hl hn hg hs => ?_⟩
  rcases env with ⟨e, l, n, g, s⟩
  cases e <;> cases l <;> cases n <;> cases g <;> cases s <;>
    first
      | exact absurd he (by decide)
      | exact absurd hl (by decide)
      | exact absurd hn (by decide)
      | exact absurd hg (by decide)
      | exact absurd hs (by decide)
      | decide

theorem c10_deterministic_commands_witness :
    List.Sublist (main ⟨true, true, true, true, true⟩).1 fullScript ∧
    ((true : Bool) = true → (true : Bool) = true → (true : Bool) = true →
      (true : Bool) = true → (true : Bool) = true →
      (main ⟨true, true, true, true, true⟩).1 = fullScript) :=
  c10_deterministic_commands ⟨true, true, true, true, true⟩

end VerifyCallcaps
